import Mathlib

/-!
Verification of the ClipForge recording session orchestrator
(`src-tauri/src/commands/recording/mod.rs` and
`src-tauri/src/commands/recording/screen_capture.rs`).

The Rust code is shallowly embedded: pure functions become Lean functions,
stateful command handlers become explicit state-passing functions on a
`RecordingManager` record, time (`chrono::Utc::now().timestamp_millis()`)
is passed explicitly as a `Nat` argument, and the filesystem / subprocess
environment is passed as an explicit record of outcomes.  `u64`/`u32`
arithmetic is modelled on `Nat`; the places where the Rust code performs
unsigned subtraction are modelled with truncated `Nat` subtraction exactly
as `u64` subtraction behaves when it does not underflow, and the
no-underflow side conditions are stated and proved separately.
`f64` durations are modelled with `ℚ` (the code divides an integral
millisecond count by 1000).
-/

namespace ClipForge

/-- Equality of `Except` results is decidable whenever both component types
have decidable equality. -/
instance {A B : Type} [DecidableEq A] [DecidableEq B] : DecidableEq (Except A B) :=
  fun a b =>
  match a, b with
  | Except.ok x, Except.ok y => decidable_of_iff (x = y) (by simp)
  | Except.error x, Except.error y => decidable_of_iff (x = y) (by simp)
  | Except.ok _, Except.error _ => isFalse (by simp)
  | Except.error _, Except.ok _ => isFalse (by simp)

/-- `RecordingStatus` from mod.rs (lines 19-25). -/
inductive RecordingStatus where
  | idle
  | recording
  | paused
  | stopping
  | fault
deriving DecidableEq, Repr

/-- Display name used in Rust `{:?}` formatting of `RecordingStatus`. -/
def statusName : RecordingStatus → String
  | RecordingStatus.idle => "Idle"
  | RecordingStatus.recording => "Recording"
  | RecordingStatus.paused => "Paused"
  | RecordingStatus.stopping => "Stopping"
  | RecordingStatus.fault => "Error"

/-- `RecordingType` from mod.rs (lines 30-34). -/
inductive RecordingType where
  | screen
  | webcam
  | screenAndWebcam
deriving DecidableEq, Repr

/-- `RecordingConfig` from mod.rs (lines 38-59). -/
structure RecordingConfig where
  width : Nat
  height : Nat
  frame_rate : Nat
  video_bitrate : Nat
  video_codec : String
  audio_sample_rate : Nat
  audio_channels : Nat
  audio_bitrate : Nat
  audio_codec : String
  output_format : String
deriving DecidableEq, Repr

/-- `RecordingConfig::default` from mod.rs (lines 61-76). -/
def RecordingConfig.default : RecordingConfig :=
  { width := 1920
    height := 1080
    frame_rate := 30
    video_bitrate := 5000
    video_codec := "h264"
    audio_sample_rate := 48000
    audio_channels := 2
    audio_bitrate := 128
    audio_codec := "aac"
    output_format := "mp4" }

/-- `RecordingConfig::validate_codec_compatibility` from mod.rs (lines 129-196). -/
def RecordingConfig.validate_codec_compatibility (c : RecordingConfig) : Except String Unit :=
  match c.output_format with
  | "mp4" =>
      if c.video_codec = "h264" ∨ c.video_codec = "h265" ∨ c.video_codec = "hevc" then
        if c.audio_codec = "aac" ∨ c.audio_codec = "mp3" then Except.ok ()
        else Except.error ("MP4 format does not support " ++ c.audio_codec
          ++ " audio codec. Use aac or mp3.")
      else Except.error ("MP4 format does not support " ++ c.video_codec
        ++ " video codec. Use h264 or h265.")
  | "webm" =>
      if c.video_codec = "vp8" ∨ c.video_codec = "vp9" ∨ c.video_codec = "av1" then
        if c.audio_codec = "vorbis" ∨ c.audio_codec = "opus" then Except.ok ()
        else Except.error ("WebM format does not support " ++ c.audio_codec
          ++ " audio codec. Use vorbis or opus.")
      else Except.error ("WebM format does not support " ++ c.video_codec
        ++ " video codec. Use vp8, vp9, or av1.")
  | "mkv" =>
      -- mod.rs lines 173-176: "MKV supports almost everything. No strict validation needed"
      Except.ok ()
  | "mov" =>
      -- mod.rs lines 177-186: only the video codec is checked for MOV
      if c.video_codec = "h264" ∨ c.video_codec = "h265" ∨ c.video_codec = "hevc"
          ∨ c.video_codec = "prores" then Except.ok ()
      else Except.error ("MOV format does not support " ++ c.video_codec
        ++ " video codec. Use h264, h265, or prores.")
  | _ => Except.error ("Unsupported output format: " ++ c.output_format
      ++ ". Use mp4, webm, mkv, or mov.")

/-- `RecordingConfig::validate` from mod.rs (lines 86-126). -/
def RecordingConfig.validate (c : RecordingConfig) : Except String Unit :=
  if c.width = 0 ∨ c.height = 0 then
    Except.error "Invalid video dimensions: width and height must be greater than 0"
  else if c.width > 7680 ∨ c.height > 4320 then
    Except.error "Video dimensions exceed maximum (8K: 7680x4320)"
  else if c.frame_rate = 0 ∨ c.frame_rate > 120 then
    Except.error "Frame rate must be between 1 and 120 fps"
  else if c.video_bitrate = 0 ∨ c.video_bitrate > 100000 then
    Except.error "Video bitrate must be between 1 and 100000 kbps"
  else if c.audio_bitrate = 0 ∨ c.audio_bitrate > 512 then
    Except.error "Audio bitrate must be between 1 and 512 kbps"
  else if c.audio_channels = 0 ∨ c.audio_channels > 8 then
    Except.error "Audio channels must be between 1 and 8"
  else if c.audio_sample_rate < 8000 ∨ c.audio_sample_rate > 192000 then
    Except.error "Audio sample rate must be between 8000 and 192000 Hz"
  else c.validate_codec_compatibility

/-- `SupportedCodecs` from mod.rs (lines 1586-1590). -/
structure SupportedCodecs where
  video_codecs : List String
  audio_codecs : List String
deriving DecidableEq, Repr

/-- `get_supported_codecs` from mod.rs (lines 1543-1583). -/
def get_supported_codecs (format : String) : Except String SupportedCodecs :=
  match format with
  | "mp4" => Except.ok ⟨["h264", "h265", "hevc"], ["aac", "mp3"]⟩
  | "webm" => Except.ok ⟨["vp8", "vp9", "av1"], ["vorbis", "opus"]⟩
  | "mkv" => Except.ok ⟨["h264", "h265", "vp8", "vp9"], ["aac", "opus", "vorbis", "mp3"]⟩
  | "mov" => Except.ok ⟨["h264", "h265", "hevc", "prores"], ["aac"]⟩
  | _ => Except.error ("Unsupported format: " ++ format)

/-- `RecordingState` from mod.rs (lines 355-374).  `duration` (an `f64` number of
seconds in Rust, obtained by dividing a millisecond count by 1000.0) is
modelled with `ℚ`.  Epoch-millisecond timestamps are `Nat`. -/
structure RecordingState where
  id : String
  recording_type : RecordingType
  status : RecordingStatus
  start_time : Option Nat
  pause_time : Nat
  paused_at : Option Nat
  duration : ℚ
  file_path : Option String
  config : RecordingConfig
deriving DecidableEq, Repr

/-- `RecordingState::new` from mod.rs (lines 377-389). -/
def RecordingState.new (id : String) (rt : RecordingType) (config : RecordingConfig) :
    RecordingState :=
  { id := id
    recording_type := rt
    status := RecordingStatus.idle
    start_time := none
    pause_time := 0
    paused_at := none
    duration := 0
    file_path := none
    config := config }

/-- The `total_pause` computation inside `RecordingState::calculate_duration`
(mod.rs lines 398-402): `pause_time + (now - paused_at)` while paused,
`pause_time` otherwise.  The subtraction is `u64` subtraction, modelled by
truncated `Nat` subtraction; the no-underflow condition is proved for
reachable states below. -/
def RecordingState.total_pause_at (s : RecordingState) (now : Nat) : Nat :=
  match s.paused_at with
  | some p => s.pause_time + (now - p)
  | none => s.pause_time

/-- `RecordingState::calculate_duration` from mod.rs (lines 392-409), with the
current time passed explicitly.  Both subtractions are `u64` subtractions in
Rust, modelled by truncated `Nat` subtraction. -/
def RecordingState.calculate_duration (s : RecordingState) (now : Nat) : ℚ :=
  match s.start_time with
  | some start =>
      let elapsed := now - start
      let active_time := elapsed - s.total_pause_at now
      (active_time : ℚ) / 1000
  | none => 0

/-- `RecordingState::update_duration` from mod.rs (lines 412-414). -/
def RecordingState.update_duration (s : RecordingState) (now : Nat) : RecordingState :=
  { s with duration := s.calculate_duration now }

/-- `RecordingState::start` from mod.rs (lines 417-422). -/
def RecordingState.start (s : RecordingState) (now : Nat) : RecordingState :=
  { s with
    status := RecordingStatus.recording
    start_time := some now
    pause_time := 0
    paused_at := none }

/-- `RecordingState::pause` from mod.rs (lines 425-431): only acts when the
status is `Recording`; sets `paused_at` and then recomputes `duration`. -/
def RecordingState.pause (s : RecordingState) (now : Nat) : RecordingState :=
  if s.status = RecordingStatus.recording then
    ({ s with status := RecordingStatus.paused,
              paused_at := some now }).update_duration now
  else s

/-- `RecordingState::resume` from mod.rs (lines 434-443): only acts when the
status is `Paused`; folds `now - paused_at` into `pause_time`. -/
def RecordingState.resume (s : RecordingState) (now : Nat) : RecordingState :=
  if s.status = RecordingStatus.paused then
    match s.paused_at with
    | some p =>
        { s with
          pause_time := s.pause_time + (now - p)
          paused_at := none
          status := RecordingStatus.recording }
    | none => { s with status := RecordingStatus.recording }
  else s

/-- `RecordingState::stop` from mod.rs (lines 446-449). -/
def RecordingState.stop (s : RecordingState) (now : Nat) : RecordingState :=
  { s.update_duration now with status := RecordingStatus.idle }

/-- `RecordingState::validate_can_pause` from mod.rs (lines 490-498). -/
def RecordingState.validate_can_pause (s : RecordingState) : Except String Unit :=
  if s.status ≠ RecordingStatus.recording then
    Except.error ("Cannot pause: current status is " ++ statusName s.status
      ++ ", expected Recording")
  else Except.ok ()

/-- `RecordingState::validate_can_resume` from mod.rs (lines 501-509). -/
def RecordingState.validate_can_resume (s : RecordingState) : Except String Unit :=
  if s.status ≠ RecordingStatus.paused then
    Except.error ("Cannot resume: current status is " ++ statusName s.status
      ++ ", expected Paused")
  else Except.ok ()

/-- `ReachableAt s t`: the session state `s` can be produced from a freshly
constructed `RecordingState::new` value by the documented transition
operations (`start`, `pause`, `resume`, `stop`, `update_duration`), where
each operation reads a clock value that is monotonically non-decreasing,
and `t` is an upper bound on every clock value used so far (so any later
"now" satisfies `t ≤ now` after a `tick`). -/
inductive ReachableAt : RecordingState → Nat → Prop where
  | init (id : String) (rt : RecordingType) (config : RecordingConfig) (t : Nat) :
      ReachableAt (RecordingState.new id rt config) t
  | tick {s : RecordingState} {t : Nat} (t' : Nat) :
      ReachableAt s t → t ≤ t' → ReachableAt s t'
  | startOp {s : RecordingState} {t : Nat} :
      ReachableAt s t → ReachableAt (s.start t) t
  | pauseOp {s : RecordingState} {t : Nat} :
      ReachableAt s t → ReachableAt (s.pause t) t
  | resumeOp {s : RecordingState} {t : Nat} :
      ReachableAt s t → ReachableAt (s.resume t) t
  | stopOp {s : RecordingState} {t : Nat} :
      ReachableAt s t → ReachableAt (s.stop t) t
  | updateOp {s : RecordingState} {t : Nat} :
      ReachableAt s t → ReachableAt (s.update_duration t) t

/-- Timing invariant maintained by the transition operations: the start time
plus all accounted pause time never exceeds the current pause start (while
paused) or the current time (otherwise), and all recorded timestamps are in
the past.  This is exactly what makes the two `u64` subtractions in
`calculate_duration` underflow-free. -/
def RecordingState.timeInv (s : RecordingState) (t : Nat) : Prop :=
  ∀ st, s.start_time = some st →
    (s.paused_at = none → st + s.pause_time ≤ t) ∧
    (∀ p, s.paused_at = some p → st + s.pause_time ≤ p ∧ p ≤ t)

/-- Status/field coupling maintained by the transition operations. -/
def RecordingState.statusInv (s : RecordingState) : Prop :=
  (s.status = RecordingStatus.recording → s.paused_at = none ∧ s.start_time ≠ none) ∧
  (s.status = RecordingStatus.paused → s.paused_at ≠ none ∧ s.start_time ≠ none)

theorem reachable_timeInv {s : RecordingState} {t : Nat} (h : ReachableAt s t) :
    s.timeInv t ∧ s.statusInv := by
  induction h with
  | init id rt config t =>
      refine ⟨?_, ?_, ?_⟩
      · intro st hst
        simp [RecordingState.new] at hst
      · intro hstat
        simp [RecordingState.new] at hstat
      · intro hstat
        simp [RecordingState.new] at hstat
  | tick t' hr hle ih =>
      rename_i s' t0
      refine ⟨?_, ih.2⟩
      intro st hst
      obtain ⟨h1, h2⟩ := ih.1 st hst
      refine ⟨fun hpn => le_trans (h1 hpn) hle, fun p hpa => ?_⟩
      obtain ⟨ha, hb⟩ := h2 p hpa
      exact ⟨ha, le_trans hb hle⟩
  | startOp hr ih =>
      rename_i s' t0
      refine ⟨?_, ?_, ?_⟩
      · intro st hst
        simp [RecordingState.start] at hst ⊢
        omega
      · intro _
        simp [RecordingState.start]
      · intro hstat
        simp [RecordingState.start] at hstat
  | pauseOp hr ih =>
      rename_i s' t0
      by_cases hs : s'.status = RecordingStatus.recording
      · have hpn := (ih.2.1 hs).1
        have hsn := (ih.2.1 hs).2
        refine ⟨?_, ?_, ?_⟩
        · intro st hst
          simp [RecordingState.pause, hs, RecordingState.update_duration] at hst ⊢
          have h1 := (ih.1 st hst).1 hpn
          omega
        · intro hstat
          simp [RecordingState.pause, hs, RecordingState.update_duration] at hstat
        · intro _
          simp [RecordingState.pause, hs, RecordingState.update_duration]
          exact hsn
      · have heq : s'.pause t0 = s' := by simp [RecordingState.pause, hs]
        rw [heq]
        exact ih
  | resumeOp hr ih =>
      rename_i s' t0
      by_cases hs : s'.status = RecordingStatus.paused
      · rcases hpa : s'.paused_at with _ | p
        · exact absurd hpa (ih.2.2 hs).1
        · have hsn := (ih.2.2 hs).2
          refine ⟨?_, ?_, ?_⟩
          · intro st hst
            simp [RecordingState.resume, hs, hpa] at hst ⊢
            obtain ⟨ha, hb⟩ := (ih.1 st hst).2 p hpa
            omega
          · intro _
            simp [RecordingState.resume, hs, hpa]
            exact hsn
          · intro hstat
            simp [RecordingState.resume, hs, hpa] at hstat
      · have heq : s'.resume t0 = s' := by simp [RecordingState.resume, hs]
        rw [heq]
        exact ih
  | stopOp hr ih =>
      rename_i s' t0
      refine ⟨?_, ?_, ?_⟩
      · intro st hst
        simp [RecordingState.stop, RecordingState.update_duration] at hst ⊢
        obtain ⟨h1, h2⟩ := ih.1 st hst
        exact ⟨h1, h2⟩
      · intro hstat
        simp [RecordingState.stop, RecordingState.update_duration] at hstat
      · intro hstat
        simp [RecordingState.stop, RecordingState.update_duration] at hstat
  | updateOp hr ih =>
      rename_i s' t0
      refine ⟨?_, ?_, ?_⟩
      · intro st hst
        simp [RecordingState.update_duration] at hst ⊢
        obtain ⟨h1, h2⟩ := ih.1 st hst
        exact ⟨h1, h2⟩
      · intro hstat
        simp [RecordingState.update_duration] at hstat
        exact ih.2.1 hstat
      · intro hstat
        simp [RecordingState.update_duration] at hstat
        exact ih.2.2 hstat

/-- Modelled from the spec (§3): the duration invariant formula
`duration = (now - start_time) - (accumulated_pause_ms + (now - paused_at if
paused_at set else 0))`, in milliseconds, with genuine (non-truncating)
integer subtraction.  Stated over `ℤ` so that it can be compared with the
code-side `calculate_duration`, which uses `u64` subtraction. -/
def durationSpecMs (s : RecordingState) (now : Nat) : ℤ :=
  match s.start_time with
  | none => 0
  | some st =>
      ((now : ℤ) - st) -
        ((s.pause_time : ℤ) +
          (match s.paused_at with
           | some p => (now : ℤ) - p
           | none => 0))

theorem calculate_duration_eq_spec {s : RecordingState} {t : Nat}
    (hinv : s.timeInv t) {now : Nat} (hnow : t ≤ now) :
    s.calculate_duration now = (durationSpecMs s now : ℚ) / 1000 ∧
      0 ≤ durationSpecMs s now := by
  rcases hstart : s.start_time with _ | st
  · simp [RecordingState.calculate_duration, durationSpecMs, hstart]
  · obtain ⟨h1, h2⟩ := hinv st hstart
    rcases hpa : s.paused_at with _ | p
    · have hb := h1 hpa
      have hkey : (((now - st) - s.total_pause_at now : Nat) : ℤ) =
          durationSpecMs s now := by
        simp [durationSpecMs, hstart, hpa, RecordingState.total_pause_at]
        omega
      constructor
      · simp only [RecordingState.calculate_duration, hstart]
        rw [← hkey]
        push_cast
        ring
      · rw [← hkey]
        exact Int.ofNat_nonneg _
    · obtain ⟨ha, hb⟩ := h2 p hpa
      have hkey : (((now - st) - s.total_pause_at now : Nat) : ℤ) =
          durationSpecMs s now := by
        simp [durationSpecMs, hstart, hpa, RecordingState.total_pause_at]
        omega
      constructor
      · simp only [RecordingState.calculate_duration, hstart]
        rw [← hkey]
        push_cast
        ring
      · rw [← hkey]
        exact Int.ofNat_nonneg _

/-- C6: for every state reachable through the documented transition operations
(with a monotone clock) and every current time `now` at least as late as the
last operation, `calculate_duration` equals the spec formula
`(now - start_time) - (accumulated_pause_ms + (now - paused_at if set else 0))`
converted to seconds, where the formula is evaluated with genuine integer
subtraction (hence the `u64` subtractions in the code never underflow), the
value is non-negative, and when `start_time` is unset the duration is 0. -/
theorem c6_reachable_duration_formula (s : RecordingState) (now : Nat)
    (h : ReachableAt s now) :
    s.calculate_duration now = (durationSpecMs s now : ℚ) / 1000 ∧
      0 ≤ durationSpecMs s now ∧
      (s.start_time = none → s.calculate_duration now = 0) := by
  obtain ⟨heq, hpos⟩ :=
    calculate_duration_eq_spec (reachable_timeInv h).1 (le_refl now)
  refine ⟨heq, hpos, ?_⟩
  intro hnone
  simp [RecordingState.calculate_duration, hnone]

/-- Witness for C6 at a concrete reachable state: start at 1000 ms, pause at
3000 ms, observe at 5000 ms. -/
theorem c6_reachable_duration_formula_witness :
    (((RecordingState.new "rec_1" RecordingType.screen
        RecordingConfig.default).start 1000).pause 3000).calculate_duration 5000 =
      ((durationSpecMs (((RecordingState.new "rec_1" RecordingType.screen
        RecordingConfig.default).start 1000).pause 3000) 5000 : ℤ) : ℚ) / 1000 ∧
    0 ≤ durationSpecMs (((RecordingState.new "rec_1" RecordingType.screen
        RecordingConfig.default).start 1000).pause 3000) 5000 ∧
    ((((RecordingState.new "rec_1" RecordingType.screen
        RecordingConfig.default).start 1000).pause 3000).start_time = none →
      (((RecordingState.new "rec_1" RecordingType.screen
        RecordingConfig.default).start 1000).pause 3000).calculate_duration 5000 = 0) :=
  c6_reachable_duration_formula _ 5000
    (ReachableAt.tick 5000
      (ReachableAt.pauseOp
        (ReachableAt.tick 3000
          (ReachableAt.startOp
            (ReachableAt.init "rec_1" RecordingType.screen RecordingConfig.default 1000))
          (by omega)))
      (by omega))

/-- C7: (1) while the session is Paused, `calculate_duration` is independent of
the current time; (2) while Recording it is monotonically non-decreasing in
the current time; (3) a `resume` at `t1` followed by a `pause` at `t2` yields
a frozen duration equal to the duration at `t1` plus exactly the unpaused
wall-time interval `(t2 - t1)` in seconds — in particular an immediate pause
(`t2 = t1`) adds zero. -/
theorem c7_duration_frozen_monotone_resume_pause :
    (∀ (s : RecordingState) (t t1 t2 : Nat), ReachableAt s t →
      s.status = RecordingStatus.paused → t ≤ t1 → t ≤ t2 →
      s.calculate_duration t1 = s.calculate_duration t2) ∧
    (∀ (s : RecordingState) (t t2 : Nat), ReachableAt s t →
      s.status = RecordingStatus.recording → t ≤ t2 →
      s.calculate_duration t ≤ s.calculate_duration t2) ∧
    (∀ (s : RecordingState) (t t1 t2 : Nat), ReachableAt s t →
      s.status = RecordingStatus.paused → t ≤ t1 → t1 ≤ t2 →
      ((s.resume t1).pause t2).duration =
        s.calculate_duration t1 + ((t2 - t1 : Nat) : ℚ) / 1000) := by
  refine ⟨?_, ?_, ?_⟩
  · intro s t t1 t2 h hs h1 h2
    obtain ⟨hinv, hstatus⟩ := reachable_timeInv h
    obtain ⟨hpne, hsne⟩ := hstatus.2 hs
    rcases hpa : s.paused_at with _ | p
    · exact absurd hpa hpne
    rcases hstart : s.start_time with _ | st
    · exact absurd hstart hsne
    obtain ⟨ha, hb⟩ := (hinv st hstart).2 p hpa
    have e1 : (t1 - st) - s.total_pause_at t1 = (t2 - st) - s.total_pause_at t2 := by
      simp only [RecordingState.total_pause_at, hpa]
      omega
    simp only [RecordingState.calculate_duration, hstart, e1]
  · intro s t t2 h hs h2
    obtain ⟨hinv, hstatus⟩ := reachable_timeInv h
    obtain ⟨hpn, hsne⟩ := hstatus.1 hs
    rcases hstart : s.start_time with _ | st
    · exact absurd hstart hsne
    have e1 : (t - st) - s.total_pause_at t ≤ (t2 - st) - s.total_pause_at t2 := by
      simp only [RecordingState.total_pause_at, hpn]
      omega
    simp only [RecordingState.calculate_duration, hstart]
    gcongr

  · intro s t t1 t2 h hs h1 h2
    obtain ⟨hinv, hstatus⟩ := reachable_timeInv h
    obtain ⟨hpne, hsne⟩ := hstatus.2 hs
    rcases hpa : s.paused_at with _ | p
    · exact absurd hpa hpne
    rcases hstart : s.start_time with _ | st
    · exact absurd hstart hsne
    obtain ⟨ha, hb⟩ := (hinv st hstart).2 p hpa
    have hkey : (t2 - st) - (s.pause_time + (t1 - p) + (t2 - t2)) =
        ((t1 - st) - (s.pause_time + (t1 - p))) + (t2 - t1) := by
      omega
    have hcast : (((t2 - st) - (s.pause_time + (t1 - p) + (t2 - t2)) : Nat) : ℚ) =
        (((t1 - st) - (s.pause_time + (t1 - p)) : Nat) : ℚ) + ((t2 - t1 : Nat) : ℚ) := by
      rw [hkey]
      push_cast
      ring
    simp only [RecordingState.resume, hs, hpa, if_pos, RecordingState.pause,
      RecordingState.update_duration, RecordingState.calculate_duration,
      RecordingState.total_pause_at, hstart]
    rw [hcast]
    ring

/-- `RecordingError` from mod.rs (lines 731-763), restricted to the variants
exercised by the recording commands modelled here. -/
inductive RecordingError where
  | AlreadyRecording
  | NoActiveRecording
  | NotRecording
  | DependencyMissing (dependency : String) (install_instructions : String)
  | CaptureInitFailed (msg : String)
  | CaptureStopFailed (msg : String)
deriving DecidableEq, Repr

/-- `RecordingError::user_message` from mod.rs (lines 767-823), for the
modelled variants; `Display` for `RecordingError` delegates to it
(mod.rs lines 844-848). -/
def RecordingError.user_message : RecordingError → String
  | RecordingError.AlreadyRecording =>
      "A recording is already in progress. Please stop it before starting a new one."
  | RecordingError.NoActiveRecording => "No recording is currently active."
  | RecordingError.NotRecording => "No recording is currently active."
  | RecordingError.DependencyMissing dep instr => dep ++ " is not installed. " ++ instr
  | RecordingError.CaptureInitFailed e => "Failed to start capture: " ++ e
  | RecordingError.CaptureStopFailed e => "Failed to stop capture: " ++ e

/-- `InputMode` from screen_capture.rs (lines 17-22). -/
inductive InputMode where
  | avfoundation
  | rawStdin
deriving DecidableEq, Repr

/-- `EncodingMode` from screen_capture.rs (lines 26-33). -/
inductive EncodingMode where
  | constantFrameRate
  | variableFrameRate
  | realTime
deriving DecidableEq, Repr

/-- `ScreenCaptureSession` from screen_capture.rs (lines 36-53).  The
`ffmpeg_process : Option<Child>` handle is modelled by the Boolean
`ffmpeg_running` (whether a child process is held); paths are `String`s. -/
structure ScreenCaptureSession where
  ffmpeg_running : Bool
  output_path : String
  config : RecordingConfig
  source_id : String
  window_bounds : Option (Int × Int × Nat × Nat)
  screen_device : Option String
  input_mode : InputMode
  encoding_mode : EncodingMode
deriving DecidableEq, Repr

/-- `ScreenCaptureSession::new` from screen_capture.rs (lines 57-68). -/
def ScreenCaptureSession.new (source_id : String) (output_path : String)
    (config : RecordingConfig) : ScreenCaptureSession :=
  { ffmpeg_running := false
    output_path := output_path
    config := config
    source_id := source_id
    window_bounds := none
    screen_device := none
    input_mode := InputMode.avfoundation
    encoding_mode := EncodingMode.constantFrameRate }

/-- Environment of `ScreenCaptureSession::start` (screen_capture.rs lines
135-195): whether the ffmpeg binary is found, whether `spawn` succeeds, and
whether the spawned process exits immediately with a non-zero status. -/
structure CaptureStartEnv where
  ffmpeg_found : Bool
  spawn_ok : Bool
  spawn_err : String
  immediate_nonzero_exit : Bool
deriving DecidableEq, Repr

/-- An environment in which every step of subprocess start succeeds. -/
def CaptureStartEnv.good : CaptureStartEnv :=
  { ffmpeg_found := true, spawn_ok := true, spawn_err := "", immediate_nonzero_exit := false }

/-- `ScreenCaptureSession::start` from screen_capture.rs (lines 135-195).
The construction of the ffmpeg argument list (`build_ffmpeg_command`) has no
effect on the session state or the result and is not modelled; the stderr
logging thread likewise.  `include_audio` only affects the argument list. -/
def ScreenCaptureSession.start (cs : ScreenCaptureSession) (env : CaptureStartEnv)
    (_include_audio : Bool) : Except RecordingError ScreenCaptureSession :=
  if cs.ffmpeg_running then Except.error RecordingError.AlreadyRecording
  else if env.ffmpeg_found = false then
    Except.error (RecordingError.DependencyMissing "FFmpeg"
      "Install FFmpeg via Homebrew: brew install ffmpeg")
  else if env.spawn_ok = false then
    Except.error (RecordingError.CaptureInitFailed env.spawn_err)
  else if env.immediate_nonzero_exit then
    Except.error (RecordingError.CaptureInitFailed
      "FFmpeg exited immediately with status: nonzero")
  else Except.ok { cs with ffmpeg_running := true }

/-- Environment of `ScreenCaptureSession::stop` (screen_capture.rs lines
493-609) after the escalation protocol has driven the process to exit:
the final exit status and the state of the output file on disk
(`none` = the file does not exist, `some n` = it exists with size `n`). -/
structure CaptureStopEnv where
  exit_success : Bool
  output_len : Option Nat
deriving DecidableEq, Repr

/-- `ScreenCaptureSession::stop` from screen_capture.rs (lines 493-609).
The escalation stages (quit command on stdin, SIGINT, kill, orphan `pkill`)
only affect *when* the process exits, not on the returned value, and are
real-time/process effects outside the embedding; the verification performed
after exit (lines 572-605) is modelled exactly.  Returns the result together
with the session after `self.ffmpeg_process.take()`. -/
def ScreenCaptureSession.stop (cs : ScreenCaptureSession) (env : CaptureStopEnv) :
    Except RecordingError String × ScreenCaptureSession :=
  if cs.ffmpeg_running then
    let cs' := { cs with ffmpeg_running := false }
    if env.exit_success = false then
      (Except.error (RecordingError.CaptureStopFailed
        "FFmpeg exited with status: nonzero"), cs')
    else
      match env.output_len with
      | none => (Except.error (RecordingError.CaptureStopFailed
          "Output file was not created"), cs')
      | some 0 => (Except.error (RecordingError.CaptureStopFailed
          "Output file is empty"), cs')
      | some _ => (Except.ok cs.output_path, cs')
  else (Except.error RecordingError.NotRecording, cs)

/-- `TempFileManager` from mod.rs (lines 855-858): the private working
directory and the tracked (`active_files`) list. -/
structure TempFileManager where
  temp_dir : String
  active_files : List String
deriving DecidableEq, Repr

/-- `TempFileManager::create_temp_file` from mod.rs (lines 876-885), with the
timestamp (`chrono::Utc::now().timestamp_millis()`) passed explicitly.
Returns the updated manager (the path is pushed onto `active_files`) and the
allocated path. -/
def TempFileManager.create_temp_file (tm : TempFileManager) (pfx : String)
    (timestamp : Nat) : TempFileManager × String :=
  let filename := pfx ++ "_" ++ toString timestamp ++ ".mp4"
  let filepath := tm.temp_dir ++ "/" ++ filename
  ({ tm with active_files := tm.active_files ++ [filepath] }, filepath)

/-- One directory entry as observed by
`TempFileManager::cleanup_orphaned_files` (mod.rs lines 920-953):
`is_file` is `path.is_file()`, and `age_ms` is the file age
`SystemTime::now().duration_since(modified)` in milliseconds
(`unwrap_or_default()` clamps a future `modified` to age 0, so `Nat` is
faithful).  Sub-millisecond precision is immaterial: the code compares
whole seconds. -/
structure DirEntry where
  path : String
  is_file : Bool
  age_ms : Nat
deriving DecidableEq, Repr

/-- `TempFileManager::cleanup_orphaned_files` from mod.rs (lines 920-953),
over the listed directory contents.  A file is removed when
`age.as_secs() > 3600`, where `as_secs` truncates the duration to whole
seconds (`age_ms / 1000`).  Removals are modelled as succeeding; the count
is of successful removals.  Returns `(count, remaining entries)`. -/
def TempFileManager.cleanup_orphaned_files : List DirEntry → Nat × List DirEntry
  | [] => (0, [])
  | e :: rest =>
      let r := TempFileManager.cleanup_orphaned_files rest
      if e.is_file && decide (e.age_ms / 1000 > 3600) then (r.1 + 1, r.2)
      else (r.1, e :: r.2)

/-- `RecordingManager` from mod.rs (lines 525-530).  The tokio `JoinHandle`
of the duration-tracking task is modelled by a Boolean presence flag; the
temp-file manager (behind its own `Arc<Mutex<_>>`) is inlined. -/
structure RecordingManager where
  current_recording : Option RecordingState
  duration_task : Bool
  temp_files : TempFileManager
  capture_session : Option ScreenCaptureSession
deriving DecidableEq, Repr

/-- `RecordingManager::new` from mod.rs (lines 533-542); the temp directory is
`std::env::temp_dir().join("clipforge_recordings")` (mod.rs line 863). -/
def RecordingManager.new : RecordingManager :=
  { current_recording := none
    duration_task := false
    temp_files := { temp_dir := "clipforge_recordings", active_files := [] }
    capture_session := none }

/-- `RecordingManager::emit_state_change` from mod.rs (lines 611-615): the
event is emitted only when a current recording exists.  Returns the list of
emitted event names. -/
def RecordingManager.emit_state_change (m : RecordingManager) (ev : String) : List String :=
  match m.current_recording with
  | some _ => [ev]
  | none => []

/-- The "already active" check at the top of `start_recording`
(mod.rs lines 1301-1309): the start is refused only when a current recording
exists *and* its status is `Recording`. -/
def RecordingManager.startBlocked (m : RecordingManager) : Bool :=
  match m.current_recording with
  | some cur => decide (cur.status = RecordingStatus.recording)
  | none => false

/-- Environment of `start_recording`: the clock value used for the session id
and `RecordingState::start` (mod.rs lines 1315 and 1319, collapsed — the two
reads are distinct but nothing here depends on their difference), the clock
value used for the temp-file name (line 877, read under a later lock
acquisition), and the subprocess-start outcome. -/
structure StartEnv where
  now : Nat
  temp_now : Nat
  cap : CaptureStartEnv
deriving DecidableEq, Repr

/-- `start_recording` from mod.rs (lines 1293-1421), as a function of the
manager state, returning the new manager state, the emitted events and the
result.  The window-geometry block (lines 1335-1399) only configures crop
metadata (`screen_device`, `window_bounds`) on the capture session using the
external screen/window enumerators; it affects neither the manager state nor
the result and is not modelled.  Each `state.lock()` acquisition of the Rust
code is a separate atomic step; this sequential function is their in-order
composition (the interleaving of two concurrent calls is modelled
separately below). -/
def start_recording (env : StartEnv) (m : RecordingManager) (rt : RecordingType)
    (source_id : String) (config? : Option RecordingConfig) (include_audio : Bool) :
    RecordingManager × List String × Except String RecordingState :=
  if m.startBlocked then (m, [], Except.error "A recording is already in progress")
  else
    let config := config?.getD RecordingConfig.default
    let id := "rec_" ++ toString env.now
    let rs := (RecordingState.new id rt config).start env.now
    let tp := m.temp_files.create_temp_file id env.temp_now
    let m1 := { m with temp_files := tp.1 }
    let capture := ScreenCaptureSession.new source_id tp.2 config
    match capture.start env.cap include_audio with
    | Except.error e =>
        (m1, [], Except.error ("Failed to start capture: " ++ e.user_message))
    | Except.ok capture1 =>
        let rs1 := { rs with file_path := some tp.2 }
        let m2 := { m1 with capture_session := some capture1,
                            current_recording := some rs1,
                            duration_task := true }
        (m2, m2.emit_state_change "recording:started", Except.ok rs1)

/-- `stop_recording` from mod.rs (lines 1425-1455).  `manager.capture_session.take()`
removes the capture session before its `stop` runs, so on a stop failure the
capture session is gone but every other manager field is untouched and the
error is propagated (`map_err` + `?`).  Note that the Rust code sets
`current_recording` to `None` *before* calling `emit_state_change`, whose
guard then sees no current recording — so no `recording:stopped` event is
ever emitted. -/
def stop_recording (env : CaptureStopEnv) (now : Nat) (m : RecordingManager) :
    RecordingManager × List String × Except String RecordingState :=
  match m.current_recording with
  | none => (m, [], Except.error "No active recording")
  | some rs =>
      match m.capture_session with
      | some cs =>
          let m1 := { m with capture_session := none }
          match (cs.stop env).1 with
          | Except.error e =>
              (m1, [], Except.error ("Failed to stop capture: " ++ e.user_message))
          | Except.ok path =>
              let rs1 := { rs with file_path := some path }
              let rs2 := rs1.stop now
              let m2 := { m1 with duration_task := false, current_recording := none }
              (m2, m2.emit_state_change "recording:stopped", Except.ok rs2)
      | none =>
          let rs2 := rs.stop now
          let m2 := { m with duration_task := false, current_recording := none }
          (m2, m2.emit_state_change "recording:stopped", Except.ok rs2)

/-- `pause_recording` from mod.rs (lines 1459-1485).  The capture session is
not touched (state-only pause, see the comment at lines 1473-1478). -/
def pause_recording (now : Nat) (m : RecordingManager) :
    RecordingManager × List String × Except String RecordingState :=
  match m.current_recording with
  | none => (m, [], Except.error "No active recording")
  | some rs =>
      match rs.validate_can_pause with
      | Except.error e => (m, [], Except.error e)
      | Except.ok _ =>
          let rs1 := rs.pause now
          let m1 := { m with current_recording := some rs1 }
          (m1, m1.emit_state_change "recording:paused", Except.ok rs1)

/-- `resume_recording` from mod.rs (lines 1489-1515). -/
def resume_recording (now : Nat) (m : RecordingManager) :
    RecordingManager × List String × Except String RecordingState :=
  match m.current_recording with
  | none => (m, [], Except.error "No active recording")
  | some rs =>
      match rs.validate_can_resume with
      | Except.error e => (m, [], Except.error e)
      | Except.ok _ =>
          let rs1 := rs.resume now
          let m1 := { m with current_recording := some rs1 }
          (m1, m1.emit_state_change "recording:resumed", Except.ok rs1)

/-- Identifier of one of two concurrent `start_recording` invocations. -/
inductive StartThread where
  | tA
  | tB
deriving DecidableEq, Repr

/-- Per-thread progress of an in-flight `start_recording` call, decomposed at
the lock boundaries of mod.rs: pc 0 = the "already active" check (lines
1301-1309, under the manager lock, then released); pc 1 = spawn of the
ffmpeg subprocess (`ScreenCaptureSession::start`, lines 1401-1403, with no
lock held); pc 2 = registration of capture session and recording state
(lines 1409-1418, under the manager lock); pc 3 = returned. -/
structure StartCall where
  pc : Nat
  result : Option (Except String Unit)
deriving DecidableEq, Repr

/-- Shared state of the two-thread interleaving: the orchestrator's
`current_recording`, the multiset of live ffmpeg subprocesses (identified by
output path), and both calls.  Overwriting `manager.capture_session` at
registration drops the previously registered `ScreenCaptureSession`, whose
`Drop` impl kills its process (screen_capture.rs lines 706-714), so
registration removes the previously registered session's output path from
the live set. -/
structure RaceState where
  current : Option RecordingState
  live_procs : List String
  callA : StartCall
  callB : StartCall
deriving DecidableEq, Repr

/-- Clock value observed by each thread (thread A starts at 100 ms, thread B
at 200 ms). -/
def threadNow : StartThread → Nat
  | StartThread.tA => 100
  | StartThread.tB => 200

/-- Session id generated by each thread (mod.rs line 1315). -/
def threadRecId (t : StartThread) : String := "rec_" ++ toString (threadNow t)

/-- Temp output path allocated by each thread (mod.rs lines 876-884). -/
def threadPath (t : StartThread) : String :=
  "clipforge_recordings/" ++ threadRecId t ++ "_" ++ toString (threadNow t) ++ ".mp4"

/-- The recording state each thread registers (mod.rs lines 1318-1319, 1406):
freshly constructed, `start`ed, with the temp path as `file_path`. -/
def threadSession (t : StartThread) : RecordingState :=
  { (RecordingState.new (threadRecId t) RecordingType.screen
      RecordingConfig.default).start (threadNow t) with
    file_path := some (threadPath t) }

/-- One atomic step of thread `t` in the interleaving of two concurrent
`start_recording` calls. -/
def raceStep (t : StartThread) (s : RaceState) : RaceState :=
  let call := match t with
    | StartThread.tA => s.callA
    | StartThread.tB => s.callB
  let setCall := fun (s1 : RaceState) (c : StartCall) =>
    match t with
    | StartThread.tA => { s1 with callA := c }
    | StartThread.tB => { s1 with callB := c }
  match call.pc with
  | 0 =>
      let blocked := match s.current with
        | some cur => decide (cur.status = RecordingStatus.recording)
        | none => false
      if blocked then
        setCall s
          { pc := 3
            result := some (Except.error "A recording is already in progress") }
      else setCall s { pc := 1, result := none }
  | 1 => setCall { s with live_procs := s.live_procs ++ [threadPath t] }
      { pc := 2, result := none }
  | 2 =>
      let dropped := match s.current with
        | some cur =>
            match cur.file_path with
            | some pth => s.live_procs.filter (fun q => decide (q ≠ pth))
            | none => s.live_procs
        | none => s.live_procs
      setCall { s with current := some (threadSession t), live_procs := dropped }
        { pc := 3, result := some (Except.ok ()) }
  | _ => s

/-- Initial interleaving state: no active recording, no live subprocess. -/
def raceInit : RaceState :=
  { current := none
    live_procs := []
    callA := { pc := 0, result := none }
    callB := { pc := 0, result := none } }

/-- Run a schedule (a list of thread ids) from the initial state. -/
def runRace (sched : List StartThread) : RaceState :=
  sched.foldl (fun s t => raceStep t s) raceInit

/-- A session that was started at 1000 ms and paused at 2000 ms, hence has
status `Paused`. -/
def pausedProbe : RecordingState :=
  ((RecordingState.new "rec_1" RecordingType.screen
    RecordingConfig.default).start 1000).pause 2000

/-- A manager holding `pausedProbe` as its active (paused) session, with a
live capture subprocess and a running duration task. -/
def pausedManager : RecordingManager :=
  { RecordingManager.new with
      current_recording := some pausedProbe
      duration_task := true
      capture_session := some { ScreenCaptureSession.new "screen_1"
        "clipforge_recordings/rec_1_1000.mp4" RecordingConfig.default with
        ffmpeg_running := true } }

/-- A session that was started at 1000 ms, hence has status `Recording`. -/
def recProbe : RecordingState :=
  (RecordingState.new "rec_2" RecordingType.screen RecordingConfig.default).start 1000

/-- A manager holding `recProbe` as its active (recording) session. -/
def recManager : RecordingManager :=
  { RecordingManager.new with
      current_recording := some recProbe
      duration_task := true
      capture_session := some { ScreenCaptureSession.new "screen_1"
        "clipforge_recordings/rec_2_1000.mp4" RecordingConfig.default with
        ffmpeg_running := true } }

/-- C1 (counterexample): a start issued while the active session is `Paused`
is NOT rejected.  The check at mod.rs lines 1301-1309 refuses a start only
when the current status is `Recording`, so against `pausedManager` (whose
session status is `Paused`, i.e. ≠ Idle) the call returns a success, not the
`AlreadyRecording` rejection the claim requires. -/
theorem c1_start_while_paused_not_rejected :
    pausedProbe.status = RecordingStatus.paused ∧
    ((start_recording ⟨3000, 3000, CaptureStartEnv.good⟩ pausedManager
        RecordingType.screen "screen_1" none true).2.2).toOption.isSome = true := by
  decide

/-- C1 (amended): `start_recording` is rejected — returning the
"A recording is already in progress" error with no event emitted, no new
session created, and the manager (hence the existing session and all its
fields) completely unchanged — exactly when a current session exists whose
status is `Recording`; in particular a start while `Paused` is not
rejected. -/
theorem c1_start_rejected_only_when_recording
    (env : StartEnv) (m : RecordingManager) (rt : RecordingType) (sid : String)
    (cfg : Option RecordingConfig) (ia : Bool) (cur : RecordingState)
    (hcur : m.current_recording = some cur)
    (hstat : cur.status = RecordingStatus.recording) :
    start_recording env m rt sid cfg ia =
      (m, [], Except.error "A recording is already in progress") := by
  have hb : m.startBlocked = true := by
    simp [RecordingManager.startBlocked, hcur, hstat]
  simp [start_recording, hb]

/-- Witness for the amended C1 at a concrete manager whose session is
`Recording`. -/
theorem c1_start_rejected_only_when_recording_witness :
    start_recording ⟨3000, 3000, CaptureStartEnv.good⟩ recManager
        RecordingType.screen "screen_1" none true =
      (recManager, [], Except.error "A recording is already in progress") :=
  c1_start_rejected_only_when_recording ⟨3000, 3000, CaptureStartEnv.good⟩ recManager
    RecordingType.screen "screen_1" none true recProbe rfl rfl

/-- C2: for a capture session holding a live subprocess, after the subprocess
has exited, `stop` returns a `CaptureStopFailed` error if and only if the
exit status was non-zero, or the output file does not exist, or the output
file has zero length; in every other case it returns the output path
(screen_capture.rs lines 572-605). -/
theorem c2_capture_stop_failed_iff (cs : ScreenCaptureSession) (env : CaptureStopEnv)
    (h : cs.ffmpeg_running = true) :
    ((∃ msg, (cs.stop env).1 = Except.error (RecordingError.CaptureStopFailed msg)) ↔
      env.exit_success = false ∨ env.output_len = none ∨ env.output_len = some 0) ∧
    (env.exit_success = true → ∀ n, env.output_len = some n → n ≠ 0 →
      (cs.stop env).1 = Except.ok cs.output_path) := by
  rcases env with ⟨es, ol⟩
  cases es
  · refine ⟨⟨fun _ => Or.inl rfl, fun _ => ?_⟩, fun hes => by cases hes⟩
    exact ⟨"FFmpeg exited with status: nonzero", by simp [ScreenCaptureSession.stop, h]⟩
  · rcases ol with _ | n
    · refine ⟨⟨fun _ => Or.inr (Or.inl rfl), fun _ => ?_⟩, fun _ n hn => by cases hn⟩
      exact ⟨"Output file was not created", by simp [ScreenCaptureSession.stop, h]⟩
    · rcases n with _ | k
      · refine ⟨⟨fun _ => Or.inr (Or.inr rfl), fun _ => ?_⟩, ?_⟩
        · exact ⟨"Output file is empty", by simp [ScreenCaptureSession.stop, h]⟩
        · intro _ n hn hk
          exact absurd (Option.some.inj hn).symm hk
      · constructor
        · constructor
          · rintro ⟨msg, hmsg⟩
            simp [ScreenCaptureSession.stop, h] at hmsg
          · rintro (h1 | h2 | h3)
            · cases h1
            · cases h2
            · exact absurd (Option.some.inj h3) (Nat.succ_ne_zero k)
        · intro _ n hn hk
          simp [ScreenCaptureSession.stop, h]

/-- Capture session with a live subprocess, for the C2 witness. -/
def stopProbeSession : ScreenCaptureSession :=
  { ScreenCaptureSession.new "screen_1" "clipforge_recordings/rec_7_7.mp4"
      RecordingConfig.default with ffmpeg_running := true }

/-- Witness for C2: a non-zero exit yields `CaptureStopFailed`; a clean exit
with a non-empty output file yields the output path. -/
theorem c2_capture_stop_failed_iff_witness :
    (∃ msg, (stopProbeSession.stop ⟨false, some 5⟩).1 =
      Except.error (RecordingError.CaptureStopFailed msg)) ∧
    (stopProbeSession.stop ⟨true, some 5⟩).1 = Except.ok stopProbeSession.output_path :=
  ⟨(c2_capture_stop_failed_iff stopProbeSession ⟨false, some 5⟩ rfl).1.mpr (Or.inl rfl),
   (c2_capture_stop_failed_iff stopProbeSession ⟨true, some 5⟩ rfl).2 rfl 5 rfl
     (by decide)⟩

/-- C3 (counterexample): with the "no active recording" check and the
session registration in separate critical sections (as in mod.rs lines
1301-1309 versus 1409-1418), the interleaving A-check, B-check, A-spawn,
A-register, B-spawn, B-register lets BOTH concurrent `start` calls succeed —
neither observes `AlreadyRecording` — and in the schedule A-check, B-check,
A-spawn, B-spawn two capture subprocesses are alive simultaneously. -/
theorem c3_concurrent_start_both_succeed :
    (runRace [StartThread.tA, StartThread.tB, StartThread.tA, StartThread.tA,
        StartThread.tB, StartThread.tB]).callA.result = some (Except.ok ()) ∧
    (runRace [StartThread.tA, StartThread.tB, StartThread.tA, StartThread.tA,
        StartThread.tB, StartThread.tB]).callB.result = some (Except.ok ()) ∧
    2 ≤ (runRace [StartThread.tA, StartThread.tB, StartThread.tA,
        StartThread.tB]).live_procs.length := by
  decide

/-- C3 (amended): the check and the registration of `start_recording` happen
in separate critical sections, so atomicity holds only for serialized calls:
when one call completes before the other begins, exactly one succeeds and
the other observes the `AlreadyRecording` rejection; but there is an
interleaving of the two concurrent calls in which both succeed (the second
registration then silently replaces the first session). -/
theorem c3_start_race_characterization :
    ((runRace [StartThread.tA, StartThread.tA, StartThread.tA,
        StartThread.tB]).callA.result = some (Except.ok ()) ∧
      (runRace [StartThread.tA, StartThread.tA, StartThread.tA,
        StartThread.tB]).callB.result =
          some (Except.error "A recording is already in progress")) ∧
    ((runRace [StartThread.tB, StartThread.tA, StartThread.tB, StartThread.tB,
        StartThread.tA, StartThread.tA]).callA.result = some (Except.ok ()) ∧
      (runRace [StartThread.tB, StartThread.tA, StartThread.tB, StartThread.tB,
        StartThread.tA, StartThread.tA]).callB.result = some (Except.ok ())) := by
  decide

/-- C4: every invalid (status, operation) pair is refused with the
corresponding error and the manager — hence the session and all of its
fields (status, start_time, pause_time, paused_at, duration, file_path) — is
returned completely unchanged, with no event emitted: pause when the status
is not `Recording`, resume when the status is not `Paused`, and
pause/resume/stop when no session exists. -/
theorem c4_invalid_transitions_leave_state_unchanged :
    (∀ (now : Nat) (m : RecordingManager) (rs : RecordingState),
      m.current_recording = some rs → rs.status ≠ RecordingStatus.recording →
      pause_recording now m = (m, [],
        Except.error ("Cannot pause: current status is " ++ statusName rs.status
          ++ ", expected Recording"))) ∧
    (∀ (now : Nat) (m : RecordingManager) (rs : RecordingState),
      m.current_recording = some rs → rs.status ≠ RecordingStatus.paused →
      resume_recording now m = (m, [],
        Except.error ("Cannot resume: current status is " ++ statusName rs.status
          ++ ", expected Paused"))) ∧
    (∀ (env : CaptureStopEnv) (now : Nat) (m : RecordingManager),
      m.current_recording = none →
      stop_recording env now m = (m, [], Except.error "No active recording")) ∧
    (∀ (now : Nat) (m : RecordingManager),
      m.current_recording = none →
      pause_recording now m = (m, [], Except.error "No active recording")) ∧
    (∀ (now : Nat) (m : RecordingManager),
      m.current_recording = none →
      resume_recording now m = (m, [], Except.error "No active recording")) := by
  refine ⟨?_, ?_, ?_, ?_, ?_⟩
  · intro now m rs hcur hstat
    simp [pause_recording, hcur, RecordingState.validate_can_pause, hstat]
  · intro now m rs hcur hstat
    simp [resume_recording, hcur, RecordingState.validate_can_resume, hstat]
  · intro env now m hcur
    simp [stop_recording, hcur]
  · intro now m hcur
    simp [pause_recording, hcur]
  · intro now m hcur
    simp [resume_recording, hcur]

/-- Witness for C4: pause on a paused session, resume on a recording session,
and stop/pause/resume with no session, all at concrete inputs. -/
theorem c4_invalid_transitions_leave_state_unchanged_witness :
    pause_recording 5000 pausedManager = (pausedManager, [],
      Except.error ("Cannot pause: current status is " ++ statusName pausedProbe.status
        ++ ", expected Recording")) ∧
    resume_recording 5000 recManager = (recManager, [],
      Except.error ("Cannot resume: current status is " ++ statusName recProbe.status
        ++ ", expected Paused")) ∧
    stop_recording ⟨true, some 5⟩ 5000 RecordingManager.new =
      (RecordingManager.new, [], Except.error "No active recording") ∧
    pause_recording 5000 RecordingManager.new =
      (RecordingManager.new, [], Except.error "No active recording") ∧
    resume_recording 5000 RecordingManager.new =
      (RecordingManager.new, [], Except.error "No active recording") :=
  ⟨c4_invalid_transitions_leave_state_unchanged.1 5000 pausedManager pausedProbe rfl
      (by decide),
   c4_invalid_transitions_leave_state_unchanged.2.1 5000 recManager recProbe rfl
      (by decide),
   c4_invalid_transitions_leave_state_unchanged.2.2.1 ⟨true, some 5⟩ 5000
      RecordingManager.new rfl,
   c4_invalid_transitions_leave_state_unchanged.2.2.2.1 5000 RecordingManager.new rfl,
   c4_invalid_transitions_leave_state_unchanged.2.2.2.2 5000 RecordingManager.new rfl⟩

/-- A `start_recording` environment in which spawning the ffmpeg subprocess
fails. -/
def failingStartEnv : StartEnv :=
  ⟨3000, 3000,
    { ffmpeg_found := true, spawn_ok := false, spawn_err := "boom",
      immediate_nonzero_exit := false }⟩

/-- C5 (counterexample): when the capture subprocess fails to start, the
request returns the error and no session is retained — but the temp file
allocated for the failed attempt is NOT removed from the temp-file manager's
tracked set: it is still listed in `active_files` after the failure
(mod.rs lines 1320-1403 contain no rollback of the `create_temp_file`
registration). -/
theorem c5_failed_start_keeps_temp_file_tracked :
    ((start_recording failingStartEnv RecordingManager.new RecordingType.screen
        "screen_1" none true).2.2).toOption.isSome = false ∧
    (start_recording failingStartEnv RecordingManager.new RecordingType.screen
        "screen_1" none true).1.current_recording = none ∧
    (start_recording failingStartEnv RecordingManager.new RecordingType.screen
        "screen_1" none true).1.temp_files.active_files =
      ["clipforge_recordings/rec_3000_3000.mp4"] := by
  decide

/-- C5 (amended): if the capture subprocess fails to start, `start_recording`
propagates the error, retains no session (`current_recording`,
`capture_session` and the duration task are all unchanged, so a subsequent
start from Idle remains possible) and emits no event — but the temp file
allocated for the failed attempt is NOT rolled back: it remains appended to
the temp-file manager's tracked set (to be reclaimed later by
`cleanup_all`/`Drop` or the orphan sweep, not by start's failure path). -/
theorem c5_failed_start_retains_no_session
    (env : StartEnv) (m : RecordingManager) (rt : RecordingType) (sid : String)
    (cfg : Option RecordingConfig) (ia : Bool) (e : RecordingError)
    (hb : m.startBlocked = false)
    (hcap : (ScreenCaptureSession.new sid
        (m.temp_files.create_temp_file ("rec_" ++ toString env.now) env.temp_now).2
        (cfg.getD RecordingConfig.default)).start env.cap ia = Except.error e) :
    start_recording env m rt sid cfg ia =
      ({ m with temp_files :=
          (m.temp_files.create_temp_file ("rec_" ++ toString env.now) env.temp_now).1 },
        [], Except.error ("Failed to start capture: " ++ e.user_message)) ∧
    (start_recording env m rt sid cfg ia).1.current_recording = m.current_recording ∧
    (start_recording env m rt sid cfg ia).1.capture_session = m.capture_session ∧
    (start_recording env m rt sid cfg ia).1.duration_task = m.duration_task ∧
    (start_recording env m rt sid cfg ia).1.temp_files.active_files =
      m.temp_files.active_files ++
        [(m.temp_files.create_temp_file ("rec_" ++ toString env.now) env.temp_now).2] := by
  have hmain : start_recording env m rt sid cfg ia =
      ({ m with temp_files :=
          (m.temp_files.create_temp_file ("rec_" ++ toString env.now) env.temp_now).1 },
        [], Except.error ("Failed to start capture: " ++ e.user_message)) := by
    simp [start_recording, hb, hcap]
  refine ⟨hmain, ?_, ?_, ?_, ?_⟩
  all_goals rw [hmain]
  all_goals simp [TempFileManager.create_temp_file]

/-- Witness for the amended C5: spawn failure against a fresh manager. -/
theorem c5_failed_start_retains_no_session_witness :
    start_recording failingStartEnv RecordingManager.new RecordingType.screen
        "screen_1" none true =
      ({ RecordingManager.new with temp_files :=
          (RecordingManager.new.temp_files.create_temp_file
            ("rec_" ++ toString failingStartEnv.now) failingStartEnv.temp_now).1 },
        [], Except.error ("Failed to start capture: "
          ++ (RecordingError.CaptureInitFailed "boom").user_message)) ∧
    (start_recording failingStartEnv RecordingManager.new RecordingType.screen
        "screen_1" none true).1.current_recording =
      RecordingManager.new.current_recording ∧
    (start_recording failingStartEnv RecordingManager.new RecordingType.screen
        "screen_1" none true).1.capture_session =
      RecordingManager.new.capture_session ∧
    (start_recording failingStartEnv RecordingManager.new RecordingType.screen
        "screen_1" none true).1.duration_task =
      RecordingManager.new.duration_task ∧
    (start_recording failingStartEnv RecordingManager.new RecordingType.screen
        "screen_1" none true).1.temp_files.active_files =
      RecordingManager.new.temp_files.active_files ++
        [(RecordingManager.new.temp_files.create_temp_file
            ("rec_" ++ toString failingStartEnv.now) failingStartEnv.temp_now).2] :=
  c5_failed_start_retains_no_session failingStartEnv RecordingManager.new
    RecordingType.screen "screen_1" none true
    (RecordingError.CaptureInitFailed "boom") rfl rfl

/-- Config accepted by `validate` whose video codec is outside the mkv codec
set of `get_supported_codecs`. -/
def mkvProbeConfig : RecordingConfig :=
  { RecordingConfig.default with
      output_format := "mkv", video_codec := "av1", audio_codec := "aac" }

/-- C8 (counterexample): `validate` performs no codec check at all for the
mkv container (mod.rs lines 173-176), so a config with `output_format` mkv
and `video_codec` av1 is accepted although av1 is not one of the mkv video
codecs enumerated by `get_supported_codecs` (mod.rs lines 1553-1566). -/
theorem c8_validate_accepts_codec_outside_mkv_sets :
    mkvProbeConfig.validate = Except.ok () ∧
    get_supported_codecs mkvProbeConfig.output_format =
      Except.ok ⟨["h264", "h265", "vp8", "vp9"], ["aac", "opus", "vorbis", "mp3"]⟩ ∧
    mkvProbeConfig.video_codec ∉ ["h264", "h265", "vp8", "vp9"] := by
  decide

/-- A config accepted by `validate` passes every range check and then
`validate_codec_compatibility`. -/
theorem validate_ok_codec_ok {c : RecordingConfig} (h : c.validate = Except.ok ()) :
    c.validate_codec_compatibility = Except.ok () := by
  unfold RecordingConfig.validate at h
  split at h
  · exact Except.noConfusion h
  split at h
  · exact Except.noConfusion h
  split at h
  · exact Except.noConfusion h
  split at h
  · exact Except.noConfusion h
  split at h
  · exact Except.noConfusion h
  split at h
  · exact Except.noConfusion h
  split at h
  · exact Except.noConfusion h
  exact h

/-- C8 (amended): the codec-pair membership holds for the mp4 and webm
containers — every config accepted by `validate` has its `(video_codec,
audio_codec)` inside the sets enumerated by `get_supported_codecs` for that
container — and for mov the video codec (only) lies in the enumerated set;
`validate` does reject mp4 with vp9.  For mkv `validate` makes no codec
check at all, and for mov it never checks the audio codec, so for those two
containers the claimed membership fails (see the counterexample). -/
theorem c8_validate_codec_membership :
    get_supported_codecs "mp4" = Except.ok ⟨["h264", "h265", "hevc"], ["aac", "mp3"]⟩ ∧
    get_supported_codecs "webm" = Except.ok ⟨["vp8", "vp9", "av1"], ["vorbis", "opus"]⟩ ∧
    get_supported_codecs "mov" =
      Except.ok ⟨["h264", "h265", "hevc", "prores"], ["aac"]⟩ ∧
    (∀ c : RecordingConfig, c.validate = Except.ok () →
      (c.output_format = "mp4" →
        c.video_codec ∈ ["h264", "h265", "hevc"] ∧ c.audio_codec ∈ ["aac", "mp3"]) ∧
      (c.output_format = "webm" →
        c.video_codec ∈ ["vp8", "vp9", "av1"] ∧ c.audio_codec ∈ ["vorbis", "opus"]) ∧
      (c.output_format = "mov" →
        c.video_codec ∈ ["h264", "h265", "hevc", "prores"])) ∧
    (∀ c : RecordingConfig, c.output_format = "mp4" → c.video_codec = "vp9" →
      c.validate ≠ Except.ok ()) := by
  refine ⟨rfl, rfl, rfl, ?_, ?_⟩
  · intro c h
    have hcc := validate_ok_codec_ok h
    refine ⟨?_, ?_, ?_⟩
    · intro hf
      unfold RecordingConfig.validate_codec_compatibility at hcc
      rw [hf] at hcc
      simp at hcc
      split at hcc
      · split at hcc
        · rename_i hv ha
          constructor
          · rcases hv with h1 | h1 | h1 <;> simp [h1]
          · rcases ha with h1 | h1 <;> simp [h1]
        · exact Except.noConfusion hcc
      · exact Except.noConfusion hcc
    · intro hf
      unfold RecordingConfig.validate_codec_compatibility at hcc
      rw [hf] at hcc
      simp at hcc
      split at hcc
      · split at hcc
        · rename_i hv ha
          constructor
          · rcases hv with h1 | h1 | h1 <;> simp [h1]
          · rcases ha with h1 | h1 <;> simp [h1]
        · exact Except.noConfusion hcc
      · exact Except.noConfusion hcc
    · intro hf
      unfold RecordingConfig.validate_codec_compatibility at hcc
      rw [hf] at hcc
      simp at hcc
      by_cases h1 : c.video_codec = "h264"
      · simp [h1]
      by_cases h2 : c.video_codec = "h265"
      · simp [h2]
      by_cases h3 : c.video_codec = "hevc"
      · simp [h3]
      simp [hcc h1 h2 h3]
  · intro c hf hv h
    have hcc := validate_ok_codec_ok h
    unfold RecordingConfig.validate_codec_compatibility at hcc
    rw [hf, hv] at hcc
    simp at hcc

/-- Witness for the amended C8: the default config (mp4, h264, aac) passes
and its codecs are in the mp4 sets; mp4 with vp9 is rejected. -/
theorem c8_validate_codec_membership_witness :
    RecordingConfig.default.video_codec ∈ ["h264", "h265", "hevc"] ∧
    RecordingConfig.default.audio_codec ∈ ["aac", "mp3"] ∧
    ({ RecordingConfig.default with video_codec := "vp9" } :
      RecordingConfig).validate ≠ Except.ok () :=
  ⟨((c8_validate_codec_membership.2.2.2.1 RecordingConfig.default
      (by decide)).1 rfl).1,
   ((c8_validate_codec_membership.2.2.2.1 RecordingConfig.default
      (by decide)).1 rfl).2,
   c8_validate_codec_membership.2.2.2.2
     { RecordingConfig.default with video_codec := "vp9" } rfl rfl⟩

/-- A regular file strictly older than one hour, but by less than a full
second past a whole-second boundary (age 3600.5 s). -/
def lateFile : DirEntry :=
  { path := "clipforge_recordings/rec_9_9.mp4", is_file := true, age_ms := 3600500 }

/-- C9 (counterexample): `cleanup_orphaned_files` compares whole seconds
(`age.as_secs() > 3600`), so `lateFile`, whose age 3600500 ms strictly
exceeds one hour (3600000 ms), is NOT removed: the sweep deletes nothing and
returns count 0, contradicting "every strictly older file is deleted". -/
theorem c9_sweep_keeps_file_older_than_one_hour :
    3600 * 1000 < lateFile.age_ms ∧
    TempFileManager.cleanup_orphaned_files [lateFile] = (0, [lateFile]) := by
  decide

/-- C9 (amended): the orphan sweep removes exactly the regular files whose
age, truncated to whole seconds, exceeds 3600 — i.e. age ≥ 3601 full
seconds.  Every file of age at most one hour is left untouched (as is every
non-regular entry), a file older than one hour by less than a full second
past the boundary is also kept, and the returned count is the number of
files removed. -/
theorem c9_sweep_removes_exactly_truncated_old_files (dir : List DirEntry) :
    TempFileManager.cleanup_orphaned_files dir =
      (dir.countP (fun e => e.is_file && decide (e.age_ms / 1000 > 3600)),
       dir.filter (fun e => !(e.is_file && decide (e.age_ms / 1000 > 3600)))) := by
  induction dir with
  | nil => rfl
  | cons e rest ih =>
      by_cases hfile : e.is_file = true
      · by_cases hage : 3600 < e.age_ms / 1000
        · simp [TempFileManager.cleanup_orphaned_files, ih, List.countP_cons,
            List.filter_cons, hfile, hage]
        · simp [TempFileManager.cleanup_orphaned_files, ih, List.countP_cons,
            List.filter_cons, hfile, hage]
      · simp [TempFileManager.cleanup_orphaned_files, ih, List.countP_cons,
          List.filter_cons, hfile]

/-- C10: if stopping the capture subprocess fails, `stop_recording`
propagates the error ("Failed to stop capture: …") and performs none of the
stop side effects: the active session remains registered with all its fields
unchanged, the duration-tracking task is not cancelled, and no
"recording:stopped" event is emitted (the capture-session handle has been
taken, which is the only mutation on this path). -/
theorem c10_stop_failure_preserves_session
    (env : CaptureStopEnv) (now : Nat) (m : RecordingManager)
    (rs : RecordingState) (cs : ScreenCaptureSession) (e : RecordingError)
    (hcur : m.current_recording = some rs)
    (hcs : m.capture_session = some cs)
    (hstop : (cs.stop env).1 = Except.error e) :
    stop_recording env now m =
      ({ m with capture_session := none }, [],
        Except.error ("Failed to stop capture: " ++ e.user_message)) ∧
    (stop_recording env now m).1.current_recording = m.current_recording ∧
    (stop_recording env now m).1.duration_task = m.duration_task ∧
    (stop_recording env now m).2.1 = [] := by
  have hmain : stop_recording env now m =
      ({ m with capture_session := none }, [],
        Except.error ("Failed to stop capture: " ++ e.user_message)) := by
    simp [stop_recording, hcur, hcs, hstop]
  refine ⟨hmain, ?_, ?_, ?_⟩ <;> rw [hmain]

/-- Witness for C10: a manager with a recording session and a live capture
subprocess whose stop fails on a non-zero exit status. -/
theorem c10_stop_failure_preserves_session_witness :
    stop_recording ⟨false, some 5⟩ 5000 recManager =
      ({ recManager with capture_session := none }, [],
        Except.error ("Failed to stop capture: "
          ++ (RecordingError.CaptureStopFailed
              "FFmpeg exited with status: nonzero").user_message)) ∧
    (stop_recording ⟨false, some 5⟩ 5000 recManager).1.current_recording =
      recManager.current_recording ∧
    (stop_recording ⟨false, some 5⟩ 5000 recManager).1.duration_task =
      recManager.duration_task ∧
    (stop_recording ⟨false, some 5⟩ 5000 recManager).2.1 = [] :=
  c10_stop_failure_preserves_session ⟨false, some 5⟩ 5000 recManager recProbe
    { ScreenCaptureSession.new "screen_1" "clipforge_recordings/rec_2_1000.mp4"
        RecordingConfig.default with ffmpeg_running := true }
    (RecordingError.CaptureStopFailed "FFmpeg exited with status: nonzero")
    rfl rfl rfl

/-- Witness for C7 at concrete reachable states: `pausedProbe` (paused at
2000 ms) has a frozen duration at 4000 ms and 6000 ms; `recProbe`
(recording) has a non-decreasing duration from 1000 ms to 9000 ms; and
resume at 4000 ms followed by pause at 7000 ms adds exactly 3 seconds. -/
theorem c7_duration_frozen_monotone_resume_pause_witness :
    pausedProbe.calculate_duration 4000 = pausedProbe.calculate_duration 6000 ∧
    recProbe.calculate_duration 1000 ≤ recProbe.calculate_duration 9000 ∧
    ((pausedProbe.resume 4000).pause 7000).duration =
      pausedProbe.calculate_duration 4000 + ((7000 - 4000 : Nat) : ℚ) / 1000 := by
  have hp : ReachableAt pausedProbe 2000 :=
    ReachableAt.pauseOp (ReachableAt.tick 2000
      (ReachableAt.startOp (ReachableAt.init "rec_1" RecordingType.screen
        RecordingConfig.default 1000)) (by omega))
  have hr : ReachableAt recProbe 1000 :=
    ReachableAt.startOp (ReachableAt.init "rec_2" RecordingType.screen
      RecordingConfig.default 1000)
  exact ⟨c7_duration_frozen_monotone_resume_pause.1 pausedProbe 2000 4000 6000 hp
      (by decide) (by omega) (by omega),
    c7_duration_frozen_monotone_resume_pause.2.1 recProbe 1000 9000 hr rfl (by omega),
    c7_duration_frozen_monotone_resume_pause.2.2 pausedProbe 2000 4000 7000 hp
      (by decide) (by omega) (by omega)⟩

end ClipForge
